import Mathlib

/-!
Shallow embedding of `src/runas/runas.go` (package `runas`).

The package spawns a child copy of the current binary, has the child drop
root to a requested uid/gid via an RPC call, and hands the caller an RPC
client speaking over the child's stdin/stdout pipes.

OS effects (syscalls, pipe creation, process start, the RPC round trip)
are modelled as explicit inputs; the Go functions become pure Lean
functions from those inputs to a record of the observable outcome,
including a trace of the externally visible events where the order of
effects matters.
-/

namespace Runas

/-- Outcome of one `syscall.Setgid` / `syscall.Setuid` attempt as the OS
would report it: `none` is success, `some errno` is failure with that
errno (Go reports it as a `syscall.Errno`, converted to `uintptr`). -/
structure SysState where
  setgidResult : Int → Option Nat
  setuidResult : Int → Option Nat

/-- Go struct `internalDropArg` (runas.go lines 121-123). -/
structure internalDropArg where
  Uid : Int
  Gid : Int
deriving DecidableEq

/-- Go struct `internalDropResult` (runas.go lines 125-128); field
defaults are the Go zero values the struct starts with. -/
structure internalDropResult where
  UidDropped : Bool := false
  GidDropped : Bool := false
  SetuidErrno : Nat := 0
  SetgidErrno : Nat := 0
deriving DecidableEq

/-- One syscall made by `DropPrivileges`, recorded in call order. -/
inductive SysCallEvent
  | setgidCall (gid : Int)
  | setuidCall (uid : Int)
deriving DecidableEq

/-- Everything observable about one run of the `DropPrivileges` handler:
the filled-in result struct, the syscalls in the order they were made,
and the Go `error` return of the handler (`none` models `nil`). -/
structure DropOutcome where
  result : internalDropResult
  trace : List SysCallEvent
  rpcError : Option String
deriving DecidableEq

/-- Go method `(*internalService).DropPrivileges` (runas.go lines
130-142): attempt `syscall.Setgid(gid)`, recording `GidDropped` on
success or `SetgidErrno` on failure; then attempt `syscall.Setuid(uid)`,
recording `UidDropped` or `SetuidErrno`; finally `return nil`. -/
def DropPrivileges (os : SysState) (arg : internalDropArg) : DropOutcome :=
  let r0 : internalDropResult := {}
  let r1 : internalDropResult :=
    match os.setgidResult arg.Gid with
    | some errno => { r0 with SetgidErrno := errno }
    | none => { r0 with GidDropped := true }
  let r2 : internalDropResult :=
    match os.setuidResult arg.Uid with
    | some errno => { r1 with SetuidErrno := errno }
    | none => { r1 with UidDropped := true }
  { result := r2
    trace := [SysCallEvent.setgidCall arg.Gid, SysCallEvent.setuidCall arg.Uid]
    rpcError := none }

/-- A stream held by the duplex adapter, abstracted to what
`splitReadWrite.Close` can observe: whether the dynamic cast to
`io.Closer` succeeds (`closable`), and the error value that stream's own
`Close()` would return if called (`closeErr`, `none` for a nil error). -/
structure StreamHandle where
  closable : Bool
  closeErr : Option String
deriving DecidableEq

/-- Go struct `splitReadWrite` (runas.go lines 41-44): an `io.Reader`
and an `io.Writer` spliced into one read-write connection. -/
structure splitReadWrite where
  Reader : StreamHandle
  Writer : StreamHandle
deriving DecidableEq

/-- A close attempt made on one of the two held streams. -/
inductive CloseEvent
  | closedReader
  | closedWriter
deriving DecidableEq

/-- Observable outcome of `splitReadWrite.Close`: the returned Go
`error` (`none` models `nil`) and which underlying closes were
attempted, in order. -/
structure CloseRun where
  ret : Option String
  events : List CloseEvent
deriving DecidableEq

/-- Go method `(*splitReadWrite).Close` (runas.go lines 46-54): if the
reader casts to `io.Closer`, call its `Close()` (result discarded); then
the same for the writer; `return nil`. -/
def splitReadWrite.Close (s : splitReadWrite) : CloseRun :=
  let ev1 : List CloseEvent :=
    if s.Reader.closable then [CloseEvent.closedReader] else []
  let ev2 : List CloseEvent :=
    if s.Writer.closable then [CloseEvent.closedWriter] else []
  { ret := none, events := ev1 ++ ev2 }

/-- Name of the environment variable marking the child role. -/
def childMarkerName : String := "BECOME_GO_RUNAS_CHILD"

/-- A process standard stream, as wired into the child server's
connection. -/
inductive StdStream
  | stdinStream
  | stdoutStream
deriving DecidableEq

/-- Externally visible events of one `MaybeRunChildServer` run, in
order. -/
inductive BootEvent
  | setDoneInitTrue
  | readEnv (name : String)
  | serveConn (reader writer : StdStream)
  | exitProcess (code : Nat)
deriving DecidableEq

/-- How `MaybeRunChildServer` relinquishes the process: by returning to
its caller, or by exiting the process with the given code (after
serving), never returning. -/
inductive BootOutcome
  | returned
  | exited (code : Nat)
deriving DecidableEq

/-- Observable outcome of one `MaybeRunChildServer` run: the value of
the package-global `doneInit` afterwards, whether control returned or
the process exited, and the event trace. -/
structure BootstrapRun where
  doneInit : Bool
  outcome : BootOutcome
  events : List BootEvent
deriving DecidableEq

/-- Go function `MaybeRunChildServer` (runas.go lines 61-68), as a
function of the value of the marker environment variable (`os.Getenv`
returns `""` when the variable is absent): set `doneInit = true`; if the
marker is not `"1"`, return; otherwise serve the registry over a
`splitReadWrite` built from `os.Stdin` and `os.Stdout`, then
`os.Exit(0)`. -/
def MaybeRunChildServer (envVal : String) : BootstrapRun :=
  let ev0 : List BootEvent :=
    [BootEvent.setDoneInitTrue, BootEvent.readEnv childMarkerName]
  if envVal ≠ "1" then
    { doneInit := true, outcome := BootOutcome.returned, events := ev0 }
  else
    { doneInit := true
      outcome := BootOutcome.exited 0
      events := ev0 ++ [BootEvent.serveConn StdStream.stdinStream StdStream.stdoutStream,
                        BootEvent.exitProcess 0] }

/-- Writes to the package-global `doneInit` by the package's exported
entry points: `MaybeRunChildServer` assigns `true` unconditionally (line
62); `UidGid` (and `User`, which only wraps it) reads the flag but never
writes it. -/
inductive PkgCall
  | bootstrapCall (envVal : String)
  | uidGidCall
deriving DecidableEq

/-- Effect of one package entry-point call on the global `doneInit`. -/
def doneInitStep (b : Bool) : PkgCall → Bool
  | PkgCall.bootstrapCall _ => true
  | PkgCall.uidGidCall => b

/-- The panic message of `UidGid` when `doneInit` is still false. -/
def neverCalledMsg : String := "runas.MaybeRunChildServer() never called"

/-- The single environment entry handed to the spawned child. -/
def childMarkerAssign : String := "BECOME_GO_RUNAS_CHILD=1"

/-- Outcome of the RPC round trip `c.Call("InternalGoRunAs.DropPrivileges",
&req, &res)`: either the call succeeds and decodes a reply into `res`,
or it fails at the transport level with an error, leaving `res` at its
zero value. -/
inductive CallOutcome
  | callOk (res : internalDropResult)
  | transportFailed (msg : String)
deriving DecidableEq

/-- The `res` value after the RPC round trip: the decoded reply on
success, the untouched zero value on transport failure. -/
def resAfterCall : CallOutcome → internalDropResult
  | CallOutcome.callOk res => res
  | CallOutcome.transportFailed _ => {}

/-- The OS-dependent inputs of one `UidGid` run: the result of
`filepath.Abs(os.Args[0])`, of the two pipe creations, of `cmd.Start()`,
and of the RPC round trip. -/
structure SpawnEnv where
  absPath : Except String String
  stdoutPipe : Except String Unit
  stdinPipe : Except String Unit
  startResult : Except String Unit
  callResult : CallOutcome

/-- The child process as configured at `cmd.Start()`: its executable
path, working directory and full environment. -/
structure ChildSpawn where
  path : String
  dir : String
  env : List String
deriving DecidableEq

/-- How `UidGid` leaves its caller: a panic, the `fmt.Errorf("runas:
failed to drop root to %d/%d: %v", uid, gid, res)` error with a nil
client, or a usable client with a nil error. The error constructor
carries the per-call data the formatted message embeds. -/
inductive UidGidOutcome
  | panicked (msg : String)
  | dropFailed (uid gid : Int) (res : internalDropResult)
  | clientReturned
deriving DecidableEq

/-- Observable outcome of one `UidGid` run: how it returned, and the
child process it started, if any. -/
structure UidGidRun where
  outcome : UidGidOutcome
  spawned : Option ChildSpawn
deriving DecidableEq

/-- Go function `UidGid` (runas.go lines 82-116), as a function of the
global `doneInit` and the OS results: panic if `doneInit` is false;
`binary, _ := filepath.Abs(os.Args[0])` discards the error (Go's
`filepath.Abs` returns `""` alongside an error); configure the command
with `Dir = "/"` and `Env = [childMarkerAssign]`; panic on stdout-pipe,
stdin-pipe or start failure; issue the drop call, discarding its error
(`err = c.Call(...)` is never checked); return the drop-failed error
unless both flags of `res` are true, else return the client. -/
def UidGid (doneInit : Bool) (osEnv : SpawnEnv) (uid gid : Int) : UidGidRun :=
  if doneInit = false then
    { outcome := UidGidOutcome.panicked neverCalledMsg, spawned := none }
  else
    let binary : String :=
      match osEnv.absPath with
      | Except.ok p => p
      | Except.error _ => ""
    match osEnv.stdoutPipe with
    | Except.error e => { outcome := UidGidOutcome.panicked e, spawned := none }
    | Except.ok _ =>
      match osEnv.stdinPipe with
      | Except.error e => { outcome := UidGidOutcome.panicked e, spawned := none }
      | Except.ok _ =>
        match osEnv.startResult with
        | Except.error e => { outcome := UidGidOutcome.panicked e, spawned := none }
        | Except.ok _ =>
          let child : ChildSpawn :=
            { path := binary, dir := "/", env := [childMarkerAssign] }
          let res : internalDropResult := resAfterCall osEnv.callResult
          { outcome :=
              if res.UidDropped ≠ true ∨ res.GidDropped ≠ true then
                UidGidOutcome.dropFailed uid gid res
              else UidGidOutcome.clientReturned
            spawned := some child }

/-- A drop result with both flags set, as a fully successful child
reports it. -/
def resBothDropped : internalDropResult :=
  { UidDropped := true, GidDropped := true }

/-- A fully successful OS environment for `UidGid`. -/
def envAllOk : SpawnEnv :=
  { absPath := Except.ok ("/srv/app")
    stdoutPipe := Except.ok ()
    stdinPipe := Except.ok ()
    startResult := Except.ok ()
    callResult := CallOutcome.callOk resBothDropped }

/-- The OS-level coupling between `filepath.Abs` and `cmd.Start()`:
when `Abs` fails it returns `""` alongside its error, so the command is
configured with an empty executable path, and starting a command with an
empty path always fails (`execve` of `""` is `ENOENT`; Go's `exec`
reports an error from `Start`). A `SpawnEnv` whose `absPath` fails but
whose `startResult` succeeds is therefore an OS behaviour the program
can never observe. -/
def SpawnEnv.Realizable (osEnv : SpawnEnv) : Prop :=
  ∀ e, osEnv.absPath = Except.error e → osEnv.startResult ≠ Except.ok ()

/-- An environment where `filepath.Abs` fails and, consequently,
starting the empty-path command fails as well. -/
def envAbsAndStartFail : SpawnEnv :=
  { envAllOk with
      absPath := Except.error ("getwd: no such file or directory")
      startResult := Except.error ("exec: no command") }

/-- An environment where the stdout-pipe creation fails. -/
def envPipeFails : SpawnEnv :=
  { envAllOk with stdoutPipe := Except.error ("pipe: too many open files") }

/-- An environment where the drop call itself fails at the transport
level. -/
def envTransportFails : SpawnEnv :=
  { envAllOk with callResult := CallOutcome.transportFailed ("unexpected EOF") }

/-- An environment where the drop call succeeds at the transport level
but the child reports that neither identity was dropped. -/
def envDropRefused : SpawnEnv :=
  { envAllOk with
      callResult := CallOutcome.callOk
        { UidDropped := false, GidDropped := false
          SetuidErrno := 1, SetgidErrno := 1 } }

/-- C1: for every request and every OS behaviour, `DropPrivileges` calls
setgid (on the requested gid) strictly before setuid (on the requested
uid); both are always attempted, and each outcome is recorded in the
result independently of the other: `GidDropped` is determined solely by
the setgid outcome and `UidDropped` solely by the setuid outcome, with
the corresponding errno recorded on failure. -/
theorem DropPrivileges_order_and_independence (os : SysState) (arg : internalDropArg) :
    (DropPrivileges os arg).trace
      = [SysCallEvent.setgidCall arg.Gid, SysCallEvent.setuidCall arg.Uid]
    ∧ (DropPrivileges os arg).result.GidDropped = (os.setgidResult arg.Gid).isNone
    ∧ (DropPrivileges os arg).result.UidDropped = (os.setuidResult arg.Uid).isNone
    ∧ (DropPrivileges os arg).result.SetgidErrno
        = (os.setgidResult arg.Gid).getD 0
    ∧ (DropPrivileges os arg).result.SetuidErrno
        = (os.setuidResult arg.Uid).getD 0 := by
  cases hg : os.setgidResult arg.Gid <;> cases hu : os.setuidResult arg.Uid <;>
    simp [DropPrivileges, hg, hu]

/-- C9: the `DropPrivileges` handler returns `nil` as its RPC-level error
on every input, even when both syscall attempts fail; failures are
reported only through the result struct. -/
theorem DropPrivileges_rpc_error_nil (os : SysState) (arg : internalDropArg) :
    (DropPrivileges os arg).rpcError = none := by
  cases hg : os.setgidResult arg.Gid <;> cases hu : os.setuidResult arg.Uid <;>
    simp [DropPrivileges, hg, hu]

/-- C4: `MaybeRunChildServer` reads the marker environment variable;
when its value is not the sentinel `"1"` (in particular when absent,
i.e. `""`), it marks `doneInit` true and returns immediately, with no
serving and no process exit; when it equals `"1"`, it serves the
registry over a connection built from the process's stdin (reader) and
stdout (writer) and then exits the process with code 0, never
returning. -/
theorem MaybeRunChildServer_roles (envVal : String) :
    (envVal ≠ "1" →
      MaybeRunChildServer envVal
        = { doneInit := true
            outcome := BootOutcome.returned
            events := [BootEvent.setDoneInitTrue, BootEvent.readEnv childMarkerName] })
    ∧ (envVal = "1" →
      MaybeRunChildServer envVal
        = { doneInit := true
            outcome := BootOutcome.exited 0
            events := [BootEvent.setDoneInitTrue, BootEvent.readEnv childMarkerName,
                       BootEvent.serveConn StdStream.stdinStream StdStream.stdoutStream,
                       BootEvent.exitProcess 0] }) := by
  constructor
  · intro h
    simp [MaybeRunChildServer, h]
  · intro h
    subst h
    simp [MaybeRunChildServer]

/-- Witness for C4 at the concrete marker values `""` (absent) and
`"1"` (child role). -/
theorem MaybeRunChildServer_roles_witness :
    (MaybeRunChildServer "").outcome = BootOutcome.returned
    ∧ (MaybeRunChildServer "1").outcome = BootOutcome.exited 0 := by
  refine ⟨?_, ?_⟩
  · rw [(MaybeRunChildServer_roles "").1 (by decide)]
  · rw [(MaybeRunChildServer_roles "1").2 rfl]

/-- C10: `MaybeRunChildServer` sets `doneInit` to true unconditionally —
the trace starts with the assignment, before the environment read — so
after any call the flag is true whatever the marker value; and no
package entry point ever sets the flag back to false once true. -/
theorem doneInit_unconditional_and_monotone (envVal : String) (c : PkgCall) :
    (MaybeRunChildServer envVal).doneInit = true
    ∧ (∃ rest, (MaybeRunChildServer envVal).events
        = BootEvent.setDoneInitTrue :: BootEvent.readEnv childMarkerName :: rest)
    ∧ doneInitStep true c = true := by
  refine ⟨?_, ?_, ?_⟩
  · by_cases h : envVal = "1" <;> simp [MaybeRunChildServer, h]
  · by_cases h : envVal = "1" <;> simp [MaybeRunChildServer, h]
  · cases c <;> rfl

/-- C8: the duplex adapter's close attempts to close exactly those of
the held reader and writer that expose a close capability — whether one
is attempted is independent of the other stream's closability and of
either stream's own close error — and the adapter's close always returns
`nil`. -/
theorem splitReadWrite_Close_best_effort (s : splitReadWrite) :
    (splitReadWrite.Close s).ret = none
    ∧ (CloseEvent.closedReader ∈ (splitReadWrite.Close s).events ↔ s.Reader.closable = true)
    ∧ (CloseEvent.closedWriter ∈ (splitReadWrite.Close s).events ↔ s.Writer.closable = true)
    ∧ (∀ e : Option String,
        splitReadWrite.Close { s with Reader := { s.Reader with closeErr := e } }
          = splitReadWrite.Close s) := by
  obtain ⟨⟨rc, re⟩, ⟨wc, we⟩⟩ := s
  refine ⟨rfl, ?_, ?_, fun e => rfl⟩ <;> cases rc <;> cases wc <;>
    simp [splitReadWrite.Close]

/-- C3: when `doneInit` is still false (Role Bootstrap has not run),
every `UidGid` call panics with the fixed precondition message and
starts no child process, whatever the OS environment and the requested
identity. -/
theorem UidGid_panics_without_bootstrap (osEnv : SpawnEnv) (uid gid : Int) :
    (UidGid false osEnv uid gid).outcome = UidGidOutcome.panicked neverCalledMsg
    ∧ (UidGid false osEnv uid gid).spawned = none := by
  exact ⟨rfl, rfl⟩

/-- C5: whenever `UidGid` starts a child process, that child's
environment is exactly the single marker assignment and its working
directory is the fixed `"/"`, independent of the parent's environment
and working directory (neither is an input of the code path at all). -/
theorem UidGid_child_env_and_dir (osEnv : SpawnEnv) (uid gid : Int) (child : ChildSpawn)
    (h : (UidGid true osEnv uid gid).spawned = some child) :
    child.env = [childMarkerAssign] ∧ child.dir = "/" := by
  obtain ⟨ap, so, si, st, cr⟩ := osEnv
  cases so <;> cases si <;> cases st <;> simp [UidGid] at h
  subst h
  exact ⟨rfl, rfl⟩

/-- Witness for C5 at the concrete all-success environment. -/
theorem UidGid_child_env_and_dir_witness :
    ({ path := "/srv/app", dir := "/", env := [childMarkerAssign] } : ChildSpawn).env
        = [childMarkerAssign]
    ∧ ({ path := "/srv/app", dir := "/", env := [childMarkerAssign] } : ChildSpawn).dir
        = "/" :=
  UidGid_child_env_and_dir envAllOk 7 8
    { path := "/srv/app", dir := "/", env := [childMarkerAssign] } rfl

/-- C2: with the setup steps succeeding and the drop call delivering a
result `res`, `UidGid` returns a usable client exactly when both
`UidDropped` and `GidDropped` are true; when either flag is false it
instead returns the drop-failed error carrying the requested uid and gid
and the full per-call drop result (so no client is returned). -/
theorem UidGid_client_iff_both_dropped (osEnv : SpawnEnv) (uid gid : Int)
    (res : internalDropResult)
    (hso : osEnv.stdoutPipe = Except.ok ()) (hsi : osEnv.stdinPipe = Except.ok ())
    (hst : osEnv.startResult = Except.ok ())
    (hcr : osEnv.callResult = CallOutcome.callOk res) :
    ((UidGid true osEnv uid gid).outcome = UidGidOutcome.clientReturned
      ↔ (res.UidDropped = true ∧ res.GidDropped = true))
    ∧ (¬(res.UidDropped = true ∧ res.GidDropped = true) →
        (UidGid true osEnv uid gid).outcome = UidGidOutcome.dropFailed uid gid res) := by
  obtain ⟨ap, so, si, st, cr⟩ := osEnv
  simp only at hso hsi hst hcr
  subst hso hsi hst hcr
  obtain ⟨u, g, se, sg⟩ := res
  cases u <;> cases g <;> simp [UidGid, resAfterCall]

/-- Witness for C2: at the all-success environment the client is
returned, and at an environment whose child refused both drops the
drop-failed error is returned. -/
theorem UidGid_client_iff_both_dropped_witness :
    (UidGid true envAllOk 7 8).outcome = UidGidOutcome.clientReturned
    ∧ (UidGid true envDropRefused 7 8).outcome
        = UidGidOutcome.dropFailed 7 8
            { UidDropped := false, GidDropped := false
              SetuidErrno := 1, SetgidErrno := 1 } := by
  refine ⟨?_, ?_⟩
  · exact (UidGid_client_iff_both_dropped envAllOk 7 8 resBothDropped
      rfl rfl rfl rfl).1.mpr ⟨rfl, rfl⟩
  · exact (UidGid_client_iff_both_dropped envDropRefused 7 8
      { UidDropped := false, GidDropped := false, SetuidErrno := 1, SetgidErrno := 1 }
      rfl rfl rfl rfl).2 (by simp)

/-- C6: over every OS behaviour the program can observe (when `Abs`
fails the empty-path start also fails, see `SpawnEnv.Realizable`), every
setup failure of `UidGid` — absolute-path resolution, creation of either
pipe, or starting the child — makes the call panic, returning neither a
client nor an error value, and leaves no child running. The `Abs` error
itself is discarded at runas.go:86, but the resulting empty executable
path makes `cmd.Start()` fail, which panics at runas.go:100. -/
theorem UidGid_setup_failures_panic (osEnv : SpawnEnv) (uid gid : Int)
    (hreal : SpawnEnv.Realizable osEnv)
    (hfail : (∃ e, osEnv.absPath = Except.error e)
      ∨ (∃ e, osEnv.stdoutPipe = Except.error e)
      ∨ (∃ e, osEnv.stdinPipe = Except.error e)
      ∨ (∃ e, osEnv.startResult = Except.error e)) :
    (∃ m, (UidGid true osEnv uid gid).outcome = UidGidOutcome.panicked m)
    ∧ (UidGid true osEnv uid gid).spawned = none := by
  obtain ⟨ap, so, si, st, cr⟩ := osEnv
  cases so with
  | error e => exact ⟨⟨e, by simp [UidGid]⟩, by simp [UidGid]⟩
  | ok u =>
    cases u
    cases si with
    | error e => exact ⟨⟨e, by simp [UidGid]⟩, by simp [UidGid]⟩
    | ok u =>
      cases u
      cases st with
      | error e => exact ⟨⟨e, by simp [UidGid]⟩, by simp [UidGid]⟩
      | ok u =>
        cases u
        rcases hfail with ⟨e, hab⟩ | ⟨e, h⟩ | ⟨e, h⟩ | ⟨e, h⟩
        · exact absurd rfl (hreal e hab)
        · exact nomatch h
        · exact nomatch h
        · exact nomatch h

/-- Witness for C6 at two concrete realizable environments: one where
the stdout-pipe creation fails, and one where `filepath.Abs` fails and
the empty-path start fails with it. -/
theorem UidGid_setup_failures_panic_witness :
    ((∃ m, (UidGid true envPipeFails 1 2).outcome = UidGidOutcome.panicked m)
      ∧ (UidGid true envPipeFails 1 2).spawned = none)
    ∧ ((∃ m, (UidGid true envAbsAndStartFail 3 4).outcome = UidGidOutcome.panicked m)
      ∧ (UidGid true envAbsAndStartFail 3 4).spawned = none) := by
  constructor
  · exact UidGid_setup_failures_panic envPipeFails 1 2
      (fun e h => nomatch h)
      (Or.inr (Or.inl ⟨"pipe: too many open files", rfl⟩))
  · exact UidGid_setup_failures_panic envAbsAndStartFail 3 4
      (fun e h hc => nomatch hc)
      (Or.inl ⟨"getwd: no such file or directory", rfl⟩)

/-- C7 counterexample: at a concrete environment where the drop call
fails at the transport level, `UidGid` ignores the call's error and
returns the privilege-drop-failed error built from the zero-valued
result — the very same error constructor genuine drop failures return —
so the transport failure is not reported by a distinct error. -/
theorem UidGid_transport_failure_conflated :
    envTransportFails.callResult = CallOutcome.transportFailed ("unexpected EOF")
    ∧ (UidGid true envTransportFails 5 6).outcome
        = UidGidOutcome.dropFailed 5 6 {} := by
  exact ⟨rfl, rfl⟩

/-- C7 amended: when the drop call fails at the transport level, the
call's error is discarded (`err = c.Call(...)` is never checked) and
`UidGid` returns the same privilege-drop-failed error, computed from the
zero-valued result struct; transport failures of the drop call are thus
reported identically to a drop refusal, not distinctly. -/
theorem UidGid_transport_failure_returns_drop_failed (osEnv : SpawnEnv)
    (uid gid : Int) (m : String)
    (hso : osEnv.stdoutPipe = Except.ok ()) (hsi : osEnv.stdinPipe = Except.ok ())
    (hst : osEnv.startResult = Except.ok ())
    (hcr : osEnv.callResult = CallOutcome.transportFailed m) :
    (UidGid true osEnv uid gid).outcome = UidGidOutcome.dropFailed uid gid {} := by
  simp [UidGid, hso, hsi, hst, hcr, resAfterCall]

/-- Witness for the amended C7 at a concrete transport failure. -/
theorem UidGid_transport_failure_returns_drop_failed_witness :
    (UidGid true envTransportFails 5 6).outcome = UidGidOutcome.dropFailed 5 6 {} :=
  UidGid_transport_failure_returns_drop_failed envTransportFails 5 6
    ("unexpected EOF") rfl rfl rfl rfl

end Runas
